import Mathlib

/-!
Verification of the LUAN FAQ/FNI chat bot (`app.py`).

The Python source is shallowly embedded: each Python function becomes a Lean
function of the same name, JSON dictionaries become structures with `Option`
fields (`none` models an absent key), and a Python `KeyError` is modelled by
`Except.error`.  Python string primitives (`str.lower`, `str.strip`,
`str.split`, the `in` substring operator, `str.startswith`) are modelled by
executable helpers over the character list of a `String`; lower-casing and the
whitespace class are modelled on the ASCII range (all data in the program and
in the claims is ASCII).  The two regular expressions in `clean_fuzzy_query`
are modelled by explicit scanners that follow Python `re` semantics:
alternation tries branches left to right, `\s+` is greedy, `\b` is a
word/non-word boundary, and `re.sub` replaces all non-overlapping matches
scanning left to right.
-/

namespace Luan

/-! ## Python string primitives -/

/-- Python `str.lower`, modelled on ASCII via `Char.toLower`. -/
def pyLower (s : String) : String := ⟨s.data.map Char.toLower⟩

/-- Strip of a character list: drop whitespace from both ends (Python `str.strip()`). -/
def pyStripList (l : List Char) : List Char :=
  ((l.dropWhile Char.isWhitespace).reverse.dropWhile Char.isWhitespace).reverse

/-- Python `str.strip()` (no arguments: strips whitespace). -/
def pyStrip (s : String) : String := ⟨pyStripList s.data⟩

/-- Worker for Python `str.split()`: split on runs of whitespace, no empty parts.
`acc` holds the characters of the current word, in reverse. -/
def pySplitGo : List Char → List Char → List String
  | acc, [] => if acc.isEmpty then [] else [⟨acc.reverse⟩]
  | acc, c :: cs =>
    if c.isWhitespace then
      if acc.isEmpty then pySplitGo [] cs else (⟨acc.reverse⟩ : String) :: pySplitGo [] cs
    else
      pySplitGo (c :: acc) cs

/-- Python `str.split()` with no arguments. -/
def pySplit (s : String) : List String := pySplitGo [] s.data

/-- Contiguous-sublist test on character lists (Python `needle in haystack`). -/
def listIsSub (needle : List Char) : List Char → Bool
  | [] => needle.isEmpty
  | h :: t => needle.isPrefixOf (h :: t) || listIsSub needle t

/-- Python substring operator `needle in haystack` on strings. -/
def pyIn (needle haystack : String) : Bool := listIsSub needle.data haystack.data

/-- Python `text.startswith(k)`. -/
def pyStartsWith (text k : String) : Bool := k.data.isPrefixOf text.data

/-! ## Data model

The upstream JSON payload.  `none` in an `Option` field models an absent key;
`FaqPayload.data = none` models a top-level dictionary without the `"data"`
key, and `DataSection.result = none` a `"data"` value without `"result"`. -/

/-- One FNI record (an element of a group's `fnIs` list). -/
structure FniRecord where
  question : Option String
  response : Option String
  clauseName : Option String
  documentTypeName : Option String
  submittedByUserName : Option String
deriving DecidableEq, Repr

/-- One FAQ group (an element of `data.result`). -/
structure FaqGroup where
  name : Option String
  documentTypeName : Option String
  clientTypeName : Option String
  fnIs : List FniRecord
deriving DecidableEq, Repr

/-- The value of the top-level `"data"` key. -/
structure DataSection where
  result : Option (List FaqGroup)
deriving DecidableEq, Repr

/-- The whole upstream payload (a JSON dictionary). -/
structure FaqPayload where
  data : Option DataSection
deriving DecidableEq, Repr

/-- One entry of the result list built by `search_faqs`. -/
structure MatchResult where
  question : Option String
  answer : String
  clause : String
  documentType : String
  submittedBy : String
deriving DecidableEq, Repr

/-! ## The matcher (`clean_tokens`, `search_faqs`) -/

/-- The stop-word set of `clean_tokens` (source order). -/
def stop_words : List String :=
  ["about", "on", "for", "of", "the", "a", "an", "me", "show",
   "list", "display", "find", "fetch", "tell", "give", "can", "you",
   "issues", "negotiated", "type", "document", "clause", "client"]

/-- Python `clean_tokens`: drop stop words and tokens of length at most 1. -/
def clean_tokens (tokens : List String) : List String :=
  tokens.filter (fun t => !(stop_words.contains t) && t.length > 1)

/-- Body of the inner loop of `search_faqs`: given the group-level resolved
(lower-cased) `clause_name` and `doc_type`, decide whether record `fn` matches
all `query_tokens` and, if so, build its `MatchResult`. -/
def match_record (query_tokens : List String) (clause_name doc_type : String)
    (fn : FniRecord) : Option MatchResult :=
  let question := pyLower (fn.question.getD "")
  let response := fn.response.getD ""
  let clause := pyLower (fn.clauseName.getD clause_name)
  let document_type := pyLower (fn.documentTypeName.getD doc_type)
  let submitted_by := fn.submittedByUserName.getD "Unknown User"
  let combined_text := question ++ " " ++ clause ++ " " ++ document_type
  if query_tokens.all (fun token => pyIn token combined_text) then
    some { question := fn.question, answer := response, clause := clause,
           documentType := document_type, submittedBy := submitted_by }
  else
    none

/-- The double loop of `search_faqs` over `faq_items` (append order preserved). -/
def search_core (query_tokens : List String) (faq_items : List FaqGroup) : List MatchResult :=
  faq_items.flatMap (fun item =>
    item.fnIs.filterMap
      (match_record query_tokens (pyLower (item.name.getD "")) (pyLower (item.documentTypeName.getD ""))))

/-- Python `search_faqs(query, faq_data)`.  `faq_data = none` models
`faq_data is None`; a payload without the `"data"` key is also rejected. -/
def search_faqs (query : String) (faq_data : Option FaqPayload) : List MatchResult :=
  match faq_data with
  | none => []
  | some fd =>
    match fd.data with
    | none => []
    | some d =>
      let query := pyLower (pyStrip query)
      if query = "" then []
      else
        let query_tokens := clean_tokens (pySplit query)
        if query_tokens = [] then []
        else
          let faq_items := d.result.getD []
          search_core query_tokens faq_items

/-! ## Intent classification (`is_greeting`, `contains_fuzzy_command`) -/

/-- The greeting list of `is_greeting` (source order). -/
def greetings : List String :=
  ["hi", "hello", "hey", "good morning", "good afternoon",
   "good evening", "what\x27s up", "whatsup", "good day", "greetings"]

/-- Python `is_greeting`: any greeting phrase occurs as a substring of the
lower-cased input. -/
def is_greeting (text : String) : Bool :=
  let text := pyLower text
  greetings.any (fun word => pyIn word text)

/-- The keyword list of `contains_fuzzy_command` (source order). -/
def fuzzy_keywords : List String :=
  ["show", "show me", "display", "find", "fetch", "list",
   "search", "search for", "view", "tell me", "tell me about",
   "give me", "can you show", "show me fni for", "give me fni for"]

/-- Python `contains_fuzzy_command`: the lower-cased, stripped input starts
with one of the command keywords. -/
def contains_fuzzy_command (text : String) : Bool :=
  let text := pyStrip (pyLower text)
  fuzzy_keywords.any (fun keyword => pyStartsWith text keyword)

/-! ## The normalizer (`clean_fuzzy_query`)

The function applies two `re.sub` calls.  The first pattern is anchored:
`^(show|show me|give me|tell me|list|display|find|fetch|search|search for|view|can you show|what are|what is|tell me about)\s+`.
Regex alternation commits to the first branch (in source order) after which the
rest of the pattern matches, and the greedy `\s+` then consumes the maximal
whitespace run; since the pattern is anchored and `re.MULTILINE` is off, at
most one occurrence (at position 0) is replaced. -/

/-- Alternatives of the leading-command pattern, in the order of the source regex. -/
def fuzzy_lead_alts : List String :=
  ["show", "show me", "give me", "tell me", "list", "display", "find", "fetch",
   "search", "search for", "view", "can you show", "what are", "what is", "tell me about"]

/-- Try one alternative at the start of `text`: it must be a literal prefix and
be followed by at least one whitespace character; on success return the text
after the alternative and the (greedily consumed) whitespace run. -/
def matchAltThenSpaces : List Char → List Char → Option (List Char)
  | [], rest =>
    match rest with
    | [] => none
    | c :: cs => if c.isWhitespace then some (cs.dropWhile Char.isWhitespace) else none
  | _ :: _, [] => none
  | p :: ps, c :: cs => if p = c then matchAltThenSpaces ps cs else none

/-- The first `re.sub` of `clean_fuzzy_query`: strip one leading command phrase. -/
def dropLeadCommand (text : List Char) : List Char :=
  match fuzzy_lead_alts.findSome? (fun p => matchAltThenSpaces p.data text) with
  | some rest => rest
  | none => text

/-- Filler alternatives of the second regex of `clean_fuzzy_query`
(`\b(about|type|...|fni)\b`), in source order. -/
def filler_alts : List String :=
  ["about", "type", "document", "clause", "client", "issues", "negotiated",
   "on", "for", "of", "the", "a", "an", "me", "show", "list", "display",
   "find", "fetch", "tell", "give", "can", "you", "fni"]

/-- Regex word character `\w` (ASCII range: letters, digits, underscore). -/
def isWordChar (c : Char) : Bool := c.isAlphanum || c = '_'

/-- A word boundary `\b` holds after a match ending here when the remaining
text is empty or starts with a non-word character (every filler alternative
ends in a word character). -/
def boundaryAt (l : List Char) : Bool :=
  match l with
  | [] => true
  | c :: _ => !isWordChar c

/-- At the current position (whose left-side `\b` the caller has checked),
return the length of the first filler alternative (source order) that matches
literally and is followed by a word boundary. -/
def fillerLenAt (text : List Char) : Option Nat :=
  filler_alts.findSome? (fun f =>
    if f.data.isPrefixOf text && boundaryAt (text.drop f.length) then some f.length else none)

/-- The second `re.sub` of `clean_fuzzy_query`: delete every filler word
occurring between word boundaries, scanning left to right.  `skip` counts
characters of a matched filler still to delete; `prevIsWord` records whether
the previous character of the original text was a word character (so a `\b`
holds exactly when it is `false`, every alternative starting with a letter). -/
def removeFillersGo : Nat → Bool → List Char → List Char
  | _, _, [] => []
  | skip + 1, _, _ :: cs => removeFillersGo skip true cs
  | 0, prevIsWord, c :: cs =>
    if prevIsWord then c :: removeFillersGo 0 (isWordChar c) cs
    else
      match fillerLenAt (c :: cs) with
      | some n => removeFillersGo (n - 1) true cs
      | none => c :: removeFillersGo 0 (isWordChar c) cs

/-- The final `re.sub(r"\s+", " ", text)`: collapse every whitespace run to a
single space.  `inRun` records whether the previous character was whitespace. -/
def collapseSpacesGo : Bool → List Char → List Char
  | _, [] => []
  | inRun, c :: cs =>
    if c.isWhitespace then
      if inRun then collapseSpacesGo true cs else ' ' :: collapseSpacesGo true cs
    else c :: collapseSpacesGo false cs

/-- Python `clean_fuzzy_query`: lower-case and strip, drop a leading command
phrase, delete filler words, collapse whitespace, strip. -/
def clean_fuzzy_query (text : String) : String :=
  let t := pyStripList (pyLower text).data
  let t := dropLeadCommand t
  let t := removeFillersGo 0 false t
  ⟨pyStripList (collapseSpacesGo false t)⟩

/-! ## The welcome builder (`intro_message`) -/

/-- Python truthiness of `item.get(key)` for a string field: the key is
present and its value is a non-empty string. -/
def pyTruthyStr (o : Option String) : Bool :=
  match o with
  | none => false
  | some s => s != ""

/-- The shape of the welcome dictionary built by `intro_message`. -/
structure IntroMessage where
  title : String
  intro : String
  examples : List String
deriving DecidableEq, Repr

/-- The literal dictionary returned by `intro_message`, parameterized by the
three interpolated example values. -/
def intro_payload (clause_example doc_example client_example : String) :
    IntroMessage :=
  { title := "Hi, I’m LUAN, Infracredit’s AI Bot.",
    intro := "Ask me things like:",
    examples :=
      ["→ Show me negotiated issues about document type \"" ++ doc_example ++ "\"",
       "→ Tell me about FNI for clause \"" ++ clause_example ++ "\"",
       "→ List issues in client type \"" ++ client_example ++ "\"",
       "→ Give me FNI for \"" ++ clause_example ++ "\""] }

/-- Python `intro_message`.  The source indexes `faq_data["data"]["result"]`
directly, so a payload without those keys raises a `KeyError`, modelled by
`Except.error`. -/
def intro_message (faq_data : FaqPayload) : Except String IntroMessage :=
  match faq_data.data with
  | none => Except.error "KeyError: data"
  | some d =>
    match d.result with
    | none => Except.error "KeyError: result"
    | some result =>
      let clause_names := (result.filter (fun item => pyTruthyStr item.name)).map
        (fun item => item.name.getD "")
      let doc_names := (result.filter (fun item => pyTruthyStr item.documentTypeName)).map
        (fun item => item.documentTypeName.getD "")
      let client_types := (result.filter (fun item => pyTruthyStr item.clientTypeName)).map
        (fun item => item.clientTypeName.getD "")
      let clause_example := clause_names.headD "Clause 1"
      let doc_example := doc_names.headD "Document 1"
      let client_example := client_types.headD "Client 1"
      Except.ok (intro_payload clause_example doc_example client_example)

/-! ## The `/chat` endpoint (`chat_with_bot`)

Only the logic after a successful upstream fetch is modelled (`fetch_faqs`
returning `None` aborts the request with HTTP 500 before any of it runs).
The three string-shaped replies are distinguishable constructors. -/

/-- The guidance reply for a fuzzy query that cleans to the empty string. -/
def guidance_text : String :=
  "Please specify what you\x27d like me to show, e.g. \x27Show me FNI for Guarantee Agreement\x27."

/-- The reply when the matcher finds nothing. -/
def no_match_text : String :=
  "Hmm, I couldn’t find any match for that. Try asking differently, e.g. \x27Show me FNI in document type Guarantee Agreement\x27."

/-- The four response shapes `/chat` can produce. -/
inductive ChatResponse where
  | welcome (m : IntroMessage)
  | guidance (s : String)
  | matches (ms : List MatchResult)
  | noMatch (s : String)
deriving DecidableEq, Repr

/-- Python `chat_with_bot` after a successful fetch.  A `KeyError` escaping
`intro_message` propagates as `Except.error`. -/
def chat_with_bot (query : String) (faq_data : FaqPayload) : Except String ChatResponse :=
  let user_input := pyStrip query
  if is_greeting user_input then
    (intro_message faq_data).map ChatResponse.welcome
  else if contains_fuzzy_command user_input then
    let cleaned_query := clean_fuzzy_query user_input
    if cleaned_query = "" then
      Except.ok (ChatResponse.guidance guidance_text)
    else
      let found := search_faqs cleaned_query (some faq_data)
      if found.isEmpty then Except.ok (ChatResponse.noMatch no_match_text)
      else Except.ok (ChatResponse.matches found)
  else
    let found := search_faqs user_input (some faq_data)
    if found.isEmpty then Except.ok (ChatResponse.noMatch no_match_text)
    else Except.ok (ChatResponse.matches found)

/-! ## Sample dataset (the scenario of the spec's §8) -/

/-- The single record of the scenario dataset. -/
def sampleRecord : FniRecord :=
  { question := some "What happens on default?", response := some "Lender may call",
    clauseName := some "Indemnity", documentTypeName := none, submittedByUserName := none }

/-- The single group of the scenario dataset. -/
def sampleGroup : FaqGroup :=
  { name := some "Indemnity", documentTypeName := some "Guarantee Agreement",
    clientTypeName := none, fnIs := [sampleRecord] }

/-- The scenario dataset. -/
def sampleData : FaqPayload := ⟨some ⟨some [sampleGroup]⟩⟩

deriving instance DecidableEq for Except

/-! ## Character-level lemmas -/

/-- Converting a valid scalar value to a character and back is the identity. -/
theorem char_toNat_ofNat (n : Nat) (h : n.isValidChar) : (Char.ofNat n).toNat = n := by
  rw [Char.ofNat, dif_pos h]
  rfl

/-- ASCII lower-casing is idempotent. -/
theorem char_toLower_idem (c : Char) : Char.toLower (Char.toLower c) = Char.toLower c := by
  unfold Char.toLower
  by_cases h : c.toNat ≥ 65 ∧ c.toNat ≤ 90
  · rw [if_pos h, char_toNat_ofNat (c.toNat + 32) (Or.inl (by omega)), if_neg (by omega)]
  · rw [if_neg h, if_neg h]

/-- Characters above the ASCII control/space range are not whitespace. -/
theorem char_not_whitespace_of_gt (c : Char) (h : 64 < c.toNat) : c.isWhitespace = false := by
  simp only [Char.isWhitespace, Bool.or_eq_false_iff, decide_eq_false_iff_not]
  refine ⟨⟨⟨?_, ?_⟩, ?_⟩, ?_⟩ <;> rintro rfl <;> revert h <;> decide

/-- Lower-casing does not change whether a character is whitespace. -/
theorem char_isWhitespace_toLower (c : Char) :
    (Char.toLower c).isWhitespace = c.isWhitespace := by
  unfold Char.toLower
  by_cases h : c.toNat ≥ 65 ∧ c.toNat ≤ 90
  · rw [if_pos h,
      char_not_whitespace_of_gt _ (by rw [char_toNat_ofNat (c.toNat + 32) (Or.inl (by omega))]; omega),
      char_not_whitespace_of_gt c (by omega)]
  · rw [if_neg h]

/-! ## String-level lemmas -/

/-- Lower-casing a string is idempotent. -/
theorem pyLower_idem (s : String) : pyLower (pyLower s) = pyLower s := by
  simp only [pyLower, List.map_map]
  exact congrArg String.mk (List.map_congr_left (fun c _ => char_toLower_idem c))

/-- Dropping a whitespace run commutes with lower-casing. -/
theorem dropWhile_ws_map_toLower (l : List Char) :
    (l.map Char.toLower).dropWhile Char.isWhitespace =
      (l.dropWhile Char.isWhitespace).map Char.toLower := by
  rw [List.dropWhile_map,
    show (Char.isWhitespace ∘ Char.toLower) = Char.isWhitespace from funext char_isWhitespace_toLower]

/-- Stripping commutes with lower-casing (Python `s.lower().strip()` equals
`s.strip().lower()`). -/
theorem pyStrip_pyLower (s : String) : pyStrip (pyLower s) = pyLower (pyStrip s) := by
  simp only [pyStrip, pyLower, pyStripList]
  exact congrArg String.mk (by
    rw [dropWhile_ws_map_toLower, ← List.map_reverse, dropWhile_ws_map_toLower, List.map_reverse])

/-- Resolving an optional field against an already lower-cased default and then
lower-casing gives the same as resolving against the raw default. -/
theorem pyLower_getD (o : Option String) (s : String) :
    pyLower (o.getD (pyLower s)) = pyLower (o.getD s) := by
  cases o with
  | none => exact pyLower_idem s
  | some t => rfl

/-! ## Tokenization lemmas: splitting ignores leading and trailing whitespace -/

/-- Splitting an all-whitespace remainder behaves like splitting the empty list. -/
theorem pySplitGo_all_ws (w : List Char) (hw : ∀ c ∈ w, c.isWhitespace = true) :
    ∀ acc, pySplitGo acc w = pySplitGo acc [] := by
  induction w with
  | nil => intro acc; rfl
  | cons c cs ih =>
    intro acc
    have hc : c.isWhitespace = true := hw c (List.mem_cons_self c cs)
    have ihcs := ih (fun x hx => hw x (List.mem_cons_of_mem c hx))
    by_cases ha : acc.isEmpty <;> simp [pySplitGo, hc, ha, ihcs []]

/-- A leading all-whitespace block does not change the token list. -/
theorem pySplitGo_ws_append_left (w : List Char) (hw : ∀ c ∈ w, c.isWhitespace = true)
    (m : List Char) : pySplitGo [] (w ++ m) = pySplitGo [] m := by
  induction w with
  | nil => rfl
  | cons c cs ih =>
    have hc : c.isWhitespace = true := hw c (List.mem_cons_self c cs)
    have ihcs := ih (fun x hx => hw x (List.mem_cons_of_mem c hx))
    simp [pySplitGo, hc, ihcs]

/-- A trailing all-whitespace block does not change the token list. -/
theorem pySplitGo_ws_append_right (w : List Char) (hw : ∀ c ∈ w, c.isWhitespace = true)
    (m : List Char) : ∀ acc, pySplitGo acc (m ++ w) = pySplitGo acc m := by
  induction m with
  | nil => intro acc; exact pySplitGo_all_ws w hw acc
  | cons c cs ih =>
    intro acc
    by_cases hc : c.isWhitespace
    · by_cases ha : acc.isEmpty <;> simp [pySplitGo, hc, ha, ih []]
    · simp [pySplitGo, hc, ih (c :: acc)]

/-- Splitting after a strip gives the same tokens as splitting directly. -/
theorem pySplitGo_pyStripList (l : List Char) :
    pySplitGo [] (pyStripList l) = pySplitGo [] l := by
  have hA : l = l.takeWhile Char.isWhitespace ++ l.dropWhile Char.isWhitespace :=
    (List.takeWhile_append_dropWhile Char.isWhitespace l).symm
  have h1 : pySplitGo [] l = pySplitGo [] (l.dropWhile Char.isWhitespace) := by
    conv_lhs => rw [hA]
    exact pySplitGo_ws_append_left _ (fun c hc => List.mem_takeWhile_imp hc) _
  have hdec : l.dropWhile Char.isWhitespace =
      pyStripList l ++ ((l.dropWhile Char.isWhitespace).reverse.takeWhile Char.isWhitespace).reverse := by
    conv_lhs => rw [← List.reverse_reverse (l.dropWhile Char.isWhitespace),
      ← List.takeWhile_append_dropWhile Char.isWhitespace (l.dropWhile Char.isWhitespace).reverse]
    rw [List.reverse_append]
    rfl
  have h2 : pySplitGo [] (l.dropWhile Char.isWhitespace) = pySplitGo [] (pyStripList l) := by
    conv_lhs => rw [hdec]
    exact pySplitGo_ws_append_right _
      (fun c hc => List.mem_takeWhile_imp (List.mem_reverse.mp hc)) _ []
  rw [h1, h2]

/-- Python `s.strip().split()` equals `s.split()`. -/
theorem pySplit_pyStrip (s : String) : pySplit (pyStrip s) = pySplit s :=
  pySplitGo_pyStripList s.data

/-- The token view of a query is invariant under pre-stripping the query,
through the lower-casing the matcher applies. -/
theorem pySplit_pyLower_pyStrip (u : String) :
    pySplit (pyLower (pyStrip u)) = pySplit (pyLower u) := by
  rw [← pyStrip_pyLower, pySplit_pyStrip]

/-! ## Substring lemmas -/

/-- The Python substring test agrees with `List.IsInfix`. -/
theorem listIsSub_iff (n l : List Char) : listIsSub n l = true ↔ n <:+: l := by
  induction l with
  | nil => simp [listIsSub, List.isEmpty_iff]
  | cons c cs ih => simp [listIsSub, List.infix_cons_iff, ih]

/-- An infix whose head fails `p` survives `dropWhile p`. -/
theorem infix_dropWhile_of_head {p : Char → Bool} {c : Char} {m l : List Char}
    (hc : p c = false) (h : (c :: m) <:+: l) : (c :: m) <:+: l.dropWhile p := by
  induction l with
  | nil => exact absurd (List.infix_nil.mp h) (by simp)
  | cons x xs ih =>
    rcases List.infix_cons_iff.mp h with hpre | hinf
    · obtain ⟨t, ht⟩ := hpre
      rw [List.cons_append] at ht
      have hx : c = x := (List.cons.injEq c (m ++ t) x xs).mp ht |>.1
      rw [List.dropWhile_cons, if_neg (by rw [← hx, hc]; simp)]
      exact List.IsPrefix.isInfix ⟨t, ht⟩
    · rw [List.dropWhile_cons]
      by_cases hx : p x
      · rw [if_pos hx]
        exact ih hinf
      · rw [if_neg hx]
        exact List.infix_cons hinf

/-- A non-empty, whitespace-free infix survives a full strip. -/
theorem infix_pyStripList {n l : List Char} (hne : n ≠ [])
    (hws : ∀ c ∈ n, c.isWhitespace = false) (h : n <:+: l) : n <:+: pyStripList l := by
  obtain ⟨c, m, rfl⟩ : ∃ c m, n = c :: m := by
    cases n with
    | nil => exact absurd rfl hne
    | cons c m => exact ⟨c, m, rfl⟩
  have h1 : (c :: m) <:+: l.dropWhile Char.isWhitespace :=
    infix_dropWhile_of_head (hws c (List.mem_cons_self c m)) h
  have h2 : (c :: m).reverse <:+: (l.dropWhile Char.isWhitespace).reverse :=
    List.reverse_infix.mpr h1
  obtain ⟨d, k, hdk⟩ : ∃ d k, (c :: m).reverse = d :: k := by
    cases hrev : (c :: m).reverse with
    | nil => exact absurd (List.reverse_eq_nil_iff.mp hrev) (by simp)
    | cons d k => exact ⟨d, k, rfl⟩
  have hd : d.isWhitespace = false := by
    have : d ∈ (c :: m).reverse := by rw [hdk]; exact List.mem_cons_self d k
    exact hws d (List.mem_reverse.mp this)
  have h3 : (d :: k) <:+:
      ((l.dropWhile Char.isWhitespace).reverse).dropWhile Char.isWhitespace :=
    infix_dropWhile_of_head hd (hdk ▸ h2)
  have h4 : (c :: m).reverse <:+:
      ((l.dropWhile Char.isWhitespace).reverse).dropWhile Char.isWhitespace := by
    rw [hdk]; exact h3
  have h5 := List.reverse_infix.mpr h4
  rw [List.reverse_reverse] at h5
  exact h5

/-! ## Behavior of `/chat` branches -/

/-- A query whose lower-casing contains `hi` is detected as a greeting even
after the stripping `/chat` applies first. -/
theorem is_greeting_of_hi (q : String)
    (h : listIsSub ['h', 'i'] (pyLower q).data = true) :
    is_greeting (pyStrip q) = true := by
  have h1 : (['h', 'i'] : List Char) <:+: (pyLower q).data := (listIsSub_iff _ _).mp h
  have h2 : (['h', 'i'] : List Char) <:+: pyStripList (pyLower q).data :=
    infix_pyStripList (by simp) (by decide) h1
  have h3 : pyIn "hi" (pyLower (pyStrip q)) = true := by
    rw [← pyStrip_pyLower]
    exact (listIsSub_iff _ _).mpr h2
  unfold is_greeting
  exact List.any_eq_true.mpr ⟨"hi", by decide, h3⟩

/-- On any greeting input, `/chat` returns the welcome message built from the
dataset (a `KeyError` from the welcome builder propagates). -/
theorem chat_with_bot_of_greeting (q : String) (fd : FaqPayload)
    (h : is_greeting (pyStrip q) = true) :
    chat_with_bot q fd = (intro_message fd).map ChatResponse.welcome := by
  simp [chat_with_bot, h]

/-- On a non-greeting fuzzy command whose cleaned query is empty, `/chat`
returns the guidance reply. -/
theorem chat_with_bot_guidance (q : String) (fd : FaqPayload)
    (hg : is_greeting (pyStrip q) = false)
    (hf : contains_fuzzy_command (pyStrip q) = true)
    (hc : clean_fuzzy_query (pyStrip q) = "") :
    chat_with_bot q fd = Except.ok (ChatResponse.guidance guidance_text) := by
  simp [chat_with_bot, hg, hf, hc]

/-- The matcher returns the empty list, for every dataset, whenever the
normalized token set of the query is empty. -/
theorem search_faqs_of_empty_tokens (q : String) (fd : Option FaqPayload)
    (h : clean_tokens (pySplit (pyLower q)) = []) : search_faqs q fd = [] := by
  have h' : clean_tokens (pySplit (pyLower (pyStrip q))) = [] := by
    rw [pySplit_pyLower_pyStrip]; exact h
  match fd with
  | none => rfl
  | some ⟨none⟩ => rfl
  | some ⟨some d⟩ =>
    unfold search_faqs
    by_cases hq : pyLower (pyStrip q) = ""
    · simp [hq]
    · simp [hq, h']

/-! ## Spec-side matcher (the wording of §4.3 under the AllTokens policy) -/

/-- Spec wording: the record's clause, resolved from `clauseName` with the
owning group's `name` as default, lower-cased. -/
def spec_clause (g : FaqGroup) (fn : FniRecord) : String :=
  pyLower (fn.clauseName.getD (g.name.getD ""))

/-- Spec wording: the record's document type, resolved from the record's
`documentTypeName` with the owning group's value as default, lower-cased. -/
def spec_docType (g : FaqGroup) (fn : FniRecord) : String :=
  pyLower (fn.documentTypeName.getD (g.documentTypeName.getD ""))

/-- Spec wording: the searchable surface built from the lower-cased question,
resolved clause and resolved document type. -/
def spec_surface (g : FaqGroup) (fn : FniRecord) : String :=
  pyLower (fn.question.getD "") ++ " " ++ spec_clause g fn ++ " " ++ spec_docType g fn

/-- Spec wording: the `MatchResult` projection of a record. -/
def spec_result (g : FaqGroup) (fn : FniRecord) : MatchResult :=
  { question := fn.question, answer := fn.response.getD "",
    clause := spec_clause g fn, documentType := spec_docType g fn,
    submittedBy := fn.submittedByUserName.getD "Unknown User" }

/-- Spec wording of the AllTokens matcher: every record of every group, in
dataset order, kept iff every query token is a substring of its surface. -/
def spec_match (tokens : List String) (groups : List FaqGroup) : List MatchResult :=
  groups.flatMap (fun g =>
    g.fnIs.filterMap (fun fn =>
      if tokens.all (fun t => pyIn t (spec_surface g fn)) then some (spec_result g fn)
      else none))

/-- The inner loop body agrees with the spec-side record predicate and
projection (the group-level defaults are pre-lower-cased in the code, which is
absorbed by idempotence of lower-casing). -/
theorem match_record_eq_spec (tokens : List String) (g : FaqGroup) (fn : FniRecord) :
    match_record tokens (pyLower (g.name.getD "")) (pyLower (g.documentTypeName.getD "")) fn =
      if tokens.all (fun t => pyIn t (spec_surface g fn)) then some (spec_result g fn)
      else none := by
  unfold match_record spec_surface spec_result spec_clause spec_docType
  rw [pyLower_getD fn.clauseName (g.name.getD ""),
    pyLower_getD fn.documentTypeName (g.documentTypeName.getD "")]

/-- The double loop of the code equals the spec-side matcher. -/
theorem search_core_eq_spec (tokens : List String) (groups : List FaqGroup) :
    search_core tokens groups = spec_match tokens groups := by
  unfold search_core spec_match
  exact congrArg groups.flatMap (funext (fun g =>
    congrArg g.fnIs.filterMap (funext (fun fn => match_record_eq_spec tokens g fn))))

/-! ## Spec-side welcome builder (the wording of §4.4) -/

/-- Spec wording: the first non-empty value of a string field across all
groups, in dataset order. -/
def spec_first_string (f : FaqGroup → Option String) (groups : List FaqGroup) : Option String :=
  groups.findSome? (fun g => Option.filter (fun s => s != "") (f g))

/-- The code's collect-then-take-head computation of an example value equals
the spec-side first non-empty value (with the same fallback). -/
theorem headD_filter_eq_spec_first (f : FaqGroup → Option String)
    (groups : List FaqGroup) (d : String) :
    (((groups.filter (fun g => pyTruthyStr (f g))).map (fun g => (f g).getD "")).headD d) =
      (spec_first_string f groups).getD d := by
  induction groups with
  | nil => rfl
  | cons g gs ih =>
    unfold spec_first_string
    rw [List.findSome?_cons]
    cases hf : f g with
    | none =>
      have ht : pyTruthyStr (f g) = false := by rw [hf]; rfl
      rw [List.filter_cons_of_neg (by simp [ht])]
      simpa [spec_first_string] using ih
    | some s =>
      by_cases hs : s = ""
      · have ht : pyTruthyStr (f g) = false := by rw [hf, hs]; rfl
        rw [List.filter_cons_of_neg (by simp [ht])]
        have : Option.filter (fun s => s != "") (some s) = none := by
          rw [hs]; rfl
        rw [this]
        simpa [spec_first_string] using ih
      · have ht : pyTruthyStr (f g) = true := by
          rw [hf]; simpa [pyTruthyStr] using hs
        rw [List.filter_cons_of_pos (by rw [ht])]
        have : Option.filter (fun s => s != "") (some s) = some s := by
          simp [Option.filter, hs]
        rw [this]
        simp [hf]

/-- A field that is never truthy contributes no first value. -/
theorem spec_first_string_eq_none (f : FaqGroup → Option String) (groups : List FaqGroup)
    (h : ∀ g ∈ groups, pyTruthyStr (f g) = false) : spec_first_string f groups = none := by
  unfold spec_first_string
  rw [List.findSome?_eq_none_iff]
  intro g hg
  have hfg := h g hg
  cases ho : f g with
  | none => rfl
  | some s =>
    rw [ho] at hfg
    have hs : (s != "") = false := hfg
    simp [Option.filter, hs]

/-- Token monotonicity of the per-record test: a record accepted under a
token list is accepted under any sublist of its tokens. -/
theorem match_record_all_sub (ts1 ts2 : List String) (cn dt : String) (fn : FniRecord)
    (r : MatchResult) (hsub : ∀ t ∈ ts2, t ∈ ts1)
    (h : match_record ts1 cn dt fn = some r) : match_record ts2 cn dt fn = some r := by
  simp only [match_record] at h ⊢
  split at h
  case isTrue hall =>
    rw [if_pos (List.all_eq_true.mpr
      (fun t ht => List.all_eq_true.mp hall t (hsub t ht)))]
    exact h
  case isFalse => exact absurd h (by simp)

/-- The result record for the sample dataset. -/
def sampleResult : MatchResult :=
  { question := some "What happens on default?", answer := "Lender may call",
    clause := "indemnity", documentType := "guarantee agreement",
    submittedBy := "Unknown User" }

/-- A record with every optional field at its default. -/
def bareRecord : FniRecord :=
  { question := some "What happens on default?", response := some "Lender may call",
    clauseName := none, documentTypeName := none, submittedByUserName := none }

/-- A group with no truthy `name`, `documentTypeName` or `clientTypeName`. -/
def emptyGroup : FaqGroup :=
  { name := none, documentTypeName := some "", clientTypeName := none, fnIs := [] }

/-! # Claims -/

/-- C1, counterexample: the empty query normalizes to an empty token set, yet
`/chat` answers it with the no-match response, not the guidance response (the
guidance response is produced only on the fuzzy-command branch). -/
theorem claim_C1_counterexample :
    clean_tokens (pySplit (pyLower "")) = [] ∧
      chat_with_bot "" sampleData = Except.ok (ChatResponse.noMatch no_match_text) :=
  ⟨rfl, by decide⟩

/-- C1, amended: for every query whose normalized token set is empty the
matcher returns the empty sequence for every dataset (so without depending on
the dataset's contents); but `/chat` returns the guidance response only when
the query is classified as a fuzzy command and its cleaned query string is
empty: a plain (non-greeting, non-fuzzy) query whose normalized token set is
empty receives the no-match response, as does a fuzzy query whose cleaned
query string is non-empty but tokenizes to nothing. -/
theorem claim_C1_amended :
    (∀ (q : String) (fd : Option FaqPayload),
      clean_tokens (pySplit (pyLower q)) = [] → search_faqs q fd = []) ∧
    (∀ (q : String) (fd : FaqPayload),
      is_greeting (pyStrip q) = false →
      contains_fuzzy_command (pyStrip q) = true →
      clean_fuzzy_query (pyStrip q) = "" →
      chat_with_bot q fd = Except.ok (ChatResponse.guidance guidance_text)) ∧
    (∀ (q : String) (fd : FaqPayload),
      is_greeting (pyStrip q) = false →
      contains_fuzzy_command (pyStrip q) = false →
      clean_tokens (pySplit (pyLower q)) = [] →
      chat_with_bot q fd = Except.ok (ChatResponse.noMatch no_match_text)) ∧
    (∀ (q : String) (fd : FaqPayload),
      is_greeting (pyStrip q) = false →
      contains_fuzzy_command (pyStrip q) = true →
      clean_fuzzy_query (pyStrip q) ≠ "" →
      clean_tokens (pySplit (pyLower (clean_fuzzy_query (pyStrip q)))) = [] →
      chat_with_bot q fd = Except.ok (ChatResponse.noMatch no_match_text)) := by
  refine ⟨search_faqs_of_empty_tokens, chat_with_bot_guidance,
    fun q fd hg hf h => ?_, fun q fd hg hf hne h => ?_⟩
  · have hsearch : search_faqs (pyStrip q) (some fd) = [] := by
      apply search_faqs_of_empty_tokens
      rw [pySplit_pyLower_pyStrip]
      exact h
    simp [chat_with_bot, hg, hf, hsearch]
  · have hsearch : search_faqs (clean_fuzzy_query (pyStrip q)) (some fd) = [] :=
      search_faqs_of_empty_tokens _ _ h
    simp [chat_with_bot, hg, hf, hne, hsearch]

/-- C1, witness for the amended claim at concrete inputs. -/
theorem claim_C1_amended_witness :
    search_faqs "of the" (some sampleData) = [] ∧
      chat_with_bot "show me" sampleData = Except.ok (ChatResponse.guidance guidance_text) ∧
      chat_with_bot "of" sampleData = Except.ok (ChatResponse.noMatch no_match_text) ∧
      chat_with_bot "show me x" sampleData = Except.ok (ChatResponse.noMatch no_match_text) :=
  ⟨claim_C1_amended.1 "of the" (some sampleData) (by decide),
   claim_C1_amended.2.1 "show me" sampleData (by decide) (by decide) (by decide),
   claim_C1_amended.2.2.1 "of" sampleData (by decide) (by decide) (by decide),
   claim_C1_amended.2.2.2 "show me x" sampleData (by decide) (by decide) (by decide) (by decide)⟩

/-- C2, counterexample: the welcome builder indexes `faq_data["data"]["result"]`
directly, so a dataset value lacking the `data` key (or the `result` key)
raises a `KeyError` instead of being tolerated via defaults. -/
theorem claim_C2_counterexample :
    intro_message ⟨none⟩ = Except.error "KeyError: data" ∧
      intro_message ⟨some ⟨none⟩⟩ = Except.error "KeyError: result" :=
  ⟨rfl, rfl⟩

/-- C2, amended: record-level missing fields are resolved via defaults — a
record without `clauseName` gets the owning group's lower-cased name, one
without `documentTypeName` the owning group's lower-cased value, one without
`submittedByUserName` the string `Unknown User` — and the welcome builder
tolerates groups with missing fields; but the welcome builder raises a
`KeyError` on a dataset lacking the top-level `data`/`result` structure. -/
theorem claim_C2_amended :
    (∀ (tokens : List String) (g : FaqGroup) (fn : FniRecord) (r : MatchResult),
      fn.clauseName = none → fn.documentTypeName = none → fn.submittedByUserName = none →
      match_record tokens (pyLower (g.name.getD "")) (pyLower (g.documentTypeName.getD "")) fn =
        some r →
      r.clause = pyLower (g.name.getD "") ∧ r.documentType = pyLower (g.documentTypeName.getD "") ∧
        r.submittedBy = "Unknown User") ∧
    (∀ groups : List FaqGroup, ∃ m, intro_message ⟨some ⟨some groups⟩⟩ = Except.ok m) := by
  constructor
  · intro tokens g fn r hc hd hs hm
    rw [match_record_eq_spec] at hm
    split at hm
    case isTrue =>
      have hr : spec_result g fn = r := Option.some.inj hm
      rw [← hr]
      refine ⟨?_, ?_, ?_⟩ <;> simp [spec_result, spec_clause, spec_docType, hc, hd, hs]
    case isFalse => exact absurd hm (by simp)
  · intro groups
    exact ⟨_, rfl⟩

/-- C2, witness for the amended claim: the sample record with all optional
fields absent resolves its clause, document type and submitter from the
group's values and the fixed default. -/
theorem claim_C2_amended_witness :
    sampleResult.clause = pyLower (sampleGroup.name.getD "") ∧
      sampleResult.documentType = pyLower (sampleGroup.documentTypeName.getD "") ∧
      sampleResult.submittedBy = "Unknown User" :=
  claim_C2_amended.1 ["default"] sampleGroup bareRecord sampleResult rfl rfl rfl (by decide)

/-- C3: any input detected as a greeting makes `/chat` return the welcome
message built from the dataset, regardless of any fuzzy-command keyword also
present (the greeting check runs first). -/
theorem claim_C3 (q : String) (fd : FaqPayload) (h : is_greeting (pyStrip q) = true) :
    chat_with_bot q fd = (intro_message fd).map ChatResponse.welcome :=
  chat_with_bot_of_greeting q fd h

/-- C3, witness: an input that both starts with a fuzzy-command keyword and
contains a greeting is answered with the welcome message. -/
theorem claim_C3_witness :
    contains_fuzzy_command (pyStrip "show me hi") = true ∧
      is_greeting (pyStrip "show me hi") = true ∧
      chat_with_bot "show me hi" sampleData =
        (intro_message sampleData).map ChatResponse.welcome :=
  ⟨by decide, by decide, claim_C3 "show me hi" sampleData (by decide)⟩

/-- C4: on any dataset carrying the `data` key, for any query with a
non-empty normalized token set, the matcher returns exactly the spec-side
AllTokens selection: every record of every group, in dataset order, kept iff
every normalized token is a substring of its searchable surface (and when no
record qualifies this is the empty sequence, not an error, the function being
total).  The group list of a degenerate payload is empty. -/
theorem claim_C4 (query : String) (fd : Option FaqPayload)
    (h : clean_tokens (pySplit (pyLower (pyStrip query))) ≠ []) :
    search_faqs query fd =
      spec_match (clean_tokens (pySplit (pyLower (pyStrip query))))
        (((fd.bind FaqPayload.data).bind DataSection.result).getD []) := by
  match fd with
  | none => rfl
  | some ⟨none⟩ => rfl
  | some ⟨some d⟩ =>
    have hq : ¬ (pyLower (pyStrip query) = "") := by
      intro hq
      apply h
      rw [hq]
      rfl
    have unfolded : search_faqs query (some ⟨some d⟩) =
        (if pyLower (pyStrip query) = "" then []
         else if clean_tokens (pySplit (pyLower (pyStrip query))) = [] then []
         else search_core (clean_tokens (pySplit (pyLower (pyStrip query)))) (d.result.getD [])) :=
      rfl
    rw [unfolded, if_neg hq, if_neg h]
    exact search_core_eq_spec _ _

/-- C4, witness at a concrete query and dataset. -/
theorem claim_C4_witness :
    clean_tokens (pySplit (pyLower (pyStrip "indemnity"))) ≠ [] ∧
      search_faqs "indemnity" (some sampleData) =
        spec_match (clean_tokens (pySplit (pyLower (pyStrip "indemnity")))) [sampleGroup] :=
  ⟨by decide, claim_C4 "indemnity" (some sampleData) (by decide)⟩

/-- C5: on the scenario dataset, the query `show me fni for indemnity` cleans
to `indemnity`, tokenizes to the single token `indemnity`, and `/chat`
returns exactly one match whose clause is `indemnity`. -/
theorem claim_C5 :
    clean_fuzzy_query "show me fni for indemnity" = "indemnity" ∧
      clean_tokens (pySplit (pyLower (pyStrip "indemnity"))) = ["indemnity"] ∧
      chat_with_bot "show me fni for indemnity" sampleData =
        Except.ok (ChatResponse.matches [sampleResult]) :=
  ⟨by decide, by decide, by decide⟩

/-- C6: the AllTokens matcher is monotone in the token set — every record
matched for the tokens `[a, b]` is also matched for the token `[a]` alone. -/
theorem claim_C6 (groups : List FaqGroup) (a b : String) (r : MatchResult)
    (h : r ∈ search_core [a, b] groups) : r ∈ search_core [a] groups := by
  unfold search_core at h ⊢
  obtain ⟨g, hg, hr⟩ := List.mem_flatMap.mp h
  obtain ⟨fn, hfn, hm⟩ := List.mem_filterMap.mp hr
  exact List.mem_flatMap.mpr ⟨g, hg, List.mem_filterMap.mpr
    ⟨fn, hfn, match_record_all_sub [a, b] [a] _ _ fn r (by simp) hm⟩⟩

/-- C6, witness at a concrete record and token pair. -/
theorem claim_C6_witness :
    sampleResult ∈ search_core ["indemnity", "guarantee"] [sampleGroup] ∧
      sampleResult ∈ search_core ["indemnity"] [sampleGroup] :=
  ⟨by decide, claim_C6 [sampleGroup] "indemnity" "guarantee" sampleResult (by decide)⟩

/-- C7: matching is case-insensitive — `Guarantee` and `guarantee` give the
same results on every dataset, and in general any two queries with the same
lower-casing give identical results. -/
theorem claim_C7 :
    (∀ fd : Option FaqPayload, search_faqs "Guarantee" fd = search_faqs "guarantee" fd) ∧
    (∀ (q1 q2 : String) (fd : Option FaqPayload), pyLower q1 = pyLower q2 →
      search_faqs q1 fd = search_faqs q2 fd) := by
  have key : ∀ (q1 q2 : String) (fd : Option FaqPayload), pyLower q1 = pyLower q2 →
      search_faqs q1 fd = search_faqs q2 fd := by
    intro q1 q2 fd h
    have h2 : pyLower (pyStrip q1) = pyLower (pyStrip q2) := by
      rw [← pyStrip_pyLower, ← pyStrip_pyLower, h]
    match fd with
    | none => rfl
    | some ⟨none⟩ => rfl
    | some ⟨some d⟩ =>
      unfold search_faqs
      rw [h2]
  exact ⟨fun fd => key _ _ fd (by decide), key⟩

/-- C7, witness at a mixed-case query and the sample dataset. -/
theorem claim_C7_witness :
    search_faqs "GuaRantee" (some sampleData) = search_faqs "guarantee" (some sampleData) :=
  claim_C7.2 "GuaRantee" "guarantee" (some sampleData) (by decide)

/-- C8: the welcome builder is a function of the dataset (two calls agree); on
any dataset whose `data.result` is present it interpolates the first truthy
`name`, `documentTypeName` and `clientTypeName` in dataset order with the
fallbacks `Clause 1`, `Document 1`, `Client 1`; in particular on a dataset
with no truthy value anywhere it produces exactly the three fallbacks. -/
theorem claim_C8 :
    (∀ fd : FaqPayload, intro_message fd = intro_message fd) ∧
    (∀ groups : List FaqGroup,
      intro_message ⟨some ⟨some groups⟩⟩ =
        Except.ok (intro_payload ((spec_first_string FaqGroup.name groups).getD "Clause 1")
          ((spec_first_string FaqGroup.documentTypeName groups).getD "Document 1")
          ((spec_first_string FaqGroup.clientTypeName groups).getD "Client 1"))) ∧
    (∀ groups : List FaqGroup,
      (∀ g ∈ groups, pyTruthyStr g.name = false ∧ pyTruthyStr g.documentTypeName = false ∧
        pyTruthyStr g.clientTypeName = false) →
      intro_message ⟨some ⟨some groups⟩⟩ =
        Except.ok (intro_payload "Clause 1" "Document 1" "Client 1")) := by
  have hgen : ∀ groups : List FaqGroup,
      intro_message ⟨some ⟨some groups⟩⟩ =
        Except.ok (intro_payload ((spec_first_string FaqGroup.name groups).getD "Clause 1")
          ((spec_first_string FaqGroup.documentTypeName groups).getD "Document 1")
          ((spec_first_string FaqGroup.clientTypeName groups).getD "Client 1")) := by
    intro groups
    have unfolded : intro_message ⟨some ⟨some groups⟩⟩ =
        Except.ok (intro_payload
          (((groups.filter (fun item => pyTruthyStr item.name)).map
            (fun item => item.name.getD "")).headD "Clause 1")
          (((groups.filter (fun item => pyTruthyStr item.documentTypeName)).map
            (fun item => item.documentTypeName.getD "")).headD "Document 1")
          (((groups.filter (fun item => pyTruthyStr item.clientTypeName)).map
            (fun item => item.clientTypeName.getD "")).headD "Client 1")) := rfl
    rw [unfolded, headD_filter_eq_spec_first FaqGroup.name groups "Clause 1",
      headD_filter_eq_spec_first FaqGroup.documentTypeName groups "Document 1",
      headD_filter_eq_spec_first FaqGroup.clientTypeName groups "Client 1"]
  refine ⟨fun fd => rfl, hgen, fun groups hall => ?_⟩
  rw [hgen groups,
    spec_first_string_eq_none FaqGroup.name groups (fun g hg => (hall g hg).1),
    spec_first_string_eq_none FaqGroup.documentTypeName groups (fun g hg => (hall g hg).2.1),
    spec_first_string_eq_none FaqGroup.clientTypeName groups (fun g hg => (hall g hg).2.2)]
  rfl

/-- C8, witness: the fallback examples on a dataset with one valueless group. -/
theorem claim_C8_witness :
    intro_message ⟨some ⟨some [emptyGroup]⟩⟩ =
      Except.ok (intro_payload "Clause 1" "Document 1" "Client 1") :=
  claim_C8.2.2 [emptyGroup] (by decide)

/-- C9: because greeting phrases are tested as raw substrings, any query whose
lower-casing contains `hi` anywhere — also inside words like `this` — is
treated as a greeting and answered with the welcome message, so the matcher
result never reaches the reply. -/
theorem claim_C9 (q : String) (fd : FaqPayload)
    (h : listIsSub ['h', 'i'] (pyLower q).data = true) :
    is_greeting (pyStrip q) = true ∧
      chat_with_bot q fd = (intro_message fd).map ChatResponse.welcome :=
  ⟨is_greeting_of_hi q h, chat_with_bot_of_greeting q fd (is_greeting_of_hi q h)⟩

/-- C9, witness: a query containing `hi` only inside `this` is answered with
the welcome message. -/
theorem claim_C9_witness :
    is_greeting (pyStrip "tell me about this document") = true ∧
      chat_with_bot "tell me about this document" sampleData =
        (intro_message sampleData).map ChatResponse.welcome :=
  claim_C9 "tell me about this document" sampleData (by decide)

/-- C10: the matcher is total on degenerate datasets: an absent dataset value
and a payload without the `data` key both yield the empty sequence. -/
theorem claim_C10 :
    (∀ q : String, search_faqs q none = []) ∧
    (∀ (q : String) (fd : FaqPayload), fd.data = none → search_faqs q (some fd) = []) := by
  refine ⟨fun q => rfl, fun q fd h => ?_⟩
  cases fd with
  | mk dOpt =>
    cases dOpt with
    | none => rfl
    | some d => exact absurd h (by simp)

/-- C10, witness at a concrete query. -/
theorem claim_C10_witness :
    search_faqs "guarantee" none = [] ∧ search_faqs "guarantee" (some ⟨none⟩) = [] :=
  ⟨claim_C10.1 "guarantee", claim_C10.2 "guarantee" ⟨none⟩ rfl⟩

end Luan
